import Mathlib

/-!
Verification development for tools/create_triage_tickets.py.

The script is a sequential orchestration program: it resolves credentials,
authenticates to a Jira server, fetches the list of failed-cluster bundles
from a logs collector, fetches the set of already-filed triage tickets
(paginated), and creates a new ticket for every failure that has cluster
status "error" and whose formatted summary is not yet filed.

The embedding below is a shallow one.  External effects (HTTP GET calls,
Jira operations, error logging) are modelled by an environment record of
pure functions plus an explicit trace of side-effect actions; exceptions
are modelled by explicit outcome values.
-/

namespace Triage

/-- A failure bundle as listed by GET collector/files/ : a JSON object with
a name field (the failure id, date-prefixed). -/
structure Failure where
  name : String
deriving DecidableEq

/-- The cluster object inside metadata.json of a failure bundle; the script
reads exactly these keys. -/
structure ClusterMD where
  id : String
  user_name : String
  email_domain : String
  openshift_version : String
  status : String
deriving DecidableEq

/-- A Jira issue as returned by search, restricted to the fields the script
requests (summary, key, status). -/
structure Issue where
  key : String
  summary : String
  status : String
deriving DecidableEq

/-- The keyword arguments the script passes to jclient.create_issue.
Each versions and components entry is the single name string of the
corresponding dict; priority and issuetype likewise. -/
structure IssueFields where
  project : String
  summary : String
  versions : List String
  components : List String
  priority : String
  issuetype : String
  labels : List String
  description : String
deriving DecidableEq

/-- Observable side effects of a run, in order of occurrence:
error-level log lines, per-failure metadata GETs, Jira issue creation,
watcher addition, signature attachment, and the final closer invocation. -/
inductive Action where
  | logError (msg : String)
  | fetchMetadata (name : String)
  | createIssue (fields : IssueFields)
  | addWatcher (issueKey : String) (watcher : String)
  | addSignatures (logsUrl : String) (issueKey : String)
  | runCloser (path : String)
deriving DecidableEq

/-- Result of one HTTP GET in the requests library model: the call itself can
raise (connError), or return a response whose raise_for_status raises
(badStatus), or return a good response whose parsed JSON is the payload. -/
inductive Fetched (α : Type) where
  | connError
  | badStatus (code : Nat)
  | ok (val : α)
deriving DecidableEq

/-- The external world of one run: netrc lookup result, the two collector
endpoints, the paginated Jira search (argument is the startAt index, page
size 100 is fixed by the script), the key Jira assigns to a newly created
issue, and the description builder from the external collaborator module. -/
structure Env where
  netrcCreds : Option (String × String)
  listFailures : Fetched (List Failure)
  metadata : String → Fetched ClusterMD
  search_issues : Nat → List Issue
  days_ago : String → Int
  newKey : IssueFields → String
  describe : String → ClusterMD → String

/-- Python str.split with a single-character separator and no maxsplit,
over a list of characters: "a..b" gives ["a", "", "b"], "" gives [""].
The script only ever splits on the single characters dot, underscore and
colon, so this models its three split calls exactly. -/
def splitChar (sep : Char) : List Char → List (List Char)
  | [] => [[]]
  | c :: cs =>
    if c = sep then [] :: splitChar sep cs
    else
      match splitChar sep cs with
      | [] => [[c]]
      | w :: ws => (c :: w) :: ws

/-- str.split lifted to String. -/
def splitOnSep (sep : Char) (s : String) : List String :=
  (splitChar sep s.data).map String.mk

/-- DEFAULT_DAYS_TO_HANDLE = 30 -/
def DEFAULT_DAYS_TO_HANDLE : Nat := 30

/-- DEFAULT_WATCHERS = ["ronniela", "odepaz"] -/
def DEFAULT_WATCHERS : List String := ["ronniela", "odepaz"]

/-- LOGS_COLLECTOR base URL. -/
def LOGS_COLLECTOR : String := "http://assisted-logs-collector.usersys.redhat.com"

/-- format_summary: instantiates the JIRA_SUMMARY template with the
failure id. -/
def format_summary (failure_id : String) : String :=
  "cloud.redhat.com failure: " ++ failure_id

/-- format_labels: the five labels, in source order. -/
def format_labels (username : String) (domain : String) (cluster_id : String) :
    List String :=
  ["no-qe",
   "AI_CLOUD_TRIAGE",
   "AI_CLUSTER_" ++ cluster_id,
   "AI_USER_" ++ username,
   "AI_DOMAIN_" ++ domain]

/-- block_size = 100 in get_all_triage_tickets. -/
def block_size : Nat := 100

/-- The while-True pagination loop of get_all_triage_tickets, with explicit
fuel: each step fetches the page at the current start index, stops on an
empty page, otherwise accumulates issues and summaries and advances the
index by block_size.  none models fuel running out before an empty page
(the Python loop would still be running). -/
def getAllTriageTicketsFrom (search : Nat → List Issue) :
    Nat → Nat → Option (List Issue × List String)
  | 0, _ => Option.none
  | fuel + 1, idx =>
    let issues_bulk := search idx
    if issues_bulk.length = 0 then
      some ([], [])
    else
      match getAllTriageTicketsFrom search fuel (idx + block_size) with
      | Option.none => Option.none
      | some (issues, summaries) =>
        some (issues_bulk ++ issues, issues_bulk.map Issue.summary ++ summaries)

/-- get_all_triage_tickets: runs the pagination loop from start index 0 and
returns the accumulated issues and summary strings (the script wraps the
summaries in a set; here the list is kept and membership is used). -/
def get_all_triage_tickets (search : Nat → List Issue) (fuel : Nat) :
    Option (List Issue × List String) :=
  getAllTriageTicketsFrom search fuel 0

/-- Value returned by create_jira_ticket: None when the summary is already
filed, the new issue (identified by its key) on creation, or the ValueError
raised when unpacking major, minor from the version split fails. -/
inductive CreateResult where
  | noTicket
  | newIssue (key : String)
  | valueError
deriving DecidableEq

/-- The keyword arguments of the jclient.create_issue call, given the major
and minor components obtained from splitting the openshift version. -/
def ticketFields (env : Env) (failure_id : String) (cluster_md : ClusterMD)
    (major minor : String) : IssueFields :=
  { project := "MGMT"
    summary := format_summary failure_id
    versions := ["OpenShift " ++ (major ++ "." ++ minor)]
    components := ["Assisted-installer Triage"]
    priority := "Blocker"
    issuetype := "Bug"
    labels := format_labels cluster_md.user_name cluster_md.email_domain
                cluster_md.id
    description := env.describe (LOGS_COLLECTOR ++ "/files/" ++ failure_id)
                     cluster_md }

/-- create_jira_ticket: checks the formatted summary against the existing
ticket summaries; if absent, splits the openshift version on dots (raising
when fewer than two components result), builds the issue fields, creates the
issue and adds the default watchers.  Returns the result together with the
trace of Jira calls performed. -/
def create_jira_ticket (env : Env) (existing_tickets : List String)
    (failure_id : String) (cluster_md : ClusterMD) :
    CreateResult × List Action :=
  let summary := format_summary failure_id
  if summary ∈ existing_tickets then
    (CreateResult.noTicket, [])
  else
    match splitOnSep '.' cluster_md.openshift_version with
    | major :: minor :: _ =>
      let fields := ticketFields env failure_id cluster_md major minor
      let key := env.newKey fields
      (CreateResult.newIssue key,
        Action.createIssue fields ::
          DEFAULT_WATCHERS.map (fun w => Action.addWatcher key w))
    | _ => (CreateResult.valueError, [])

/-- Exceptions that can terminate the run uncaught. -/
inductive RunError where
  | netrcError
  | nameError
  | httpStatusError (code : Nat)
  | requestError
  | noIssuesError
  | versionUnpackError
deriving DecidableEq

/-- How a run ends: sys.exit with a code, an uncaught exception, normal
return, or the pagination loop still running when the fuel bound is hit. -/
inductive RunOutcome where
  | exited (code : Nat)
  | raised (e : RunError)
  | finished
  | nonTermination
deriving DecidableEq

/-- The for-loop over failed_clusters in main: age filtering, per-failure
metadata GET (raise_for_status propagates uncaught), status check, ticket
creation, signature attachment.  Returns the action trace together with the
uncaught exception, if one ended the loop early. -/
def processFailures (env : Env) (summaries : List String) (allFlag : Bool) :
    List Failure → List Action × Option RunError
  | [] => ([], Option.none)
  | failure :: rest =>
    let date := (splitOnSep '_' failure.name).headD ""
    if allFlag = false ∧ env.days_ago date > (DEFAULT_DAYS_TO_HANDLE : Int) then
      processFailures env summaries allFlag rest
    else
      match env.metadata failure.name with
      | Fetched.connError =>
        ([Action.fetchMetadata failure.name], some RunError.requestError)
      | Fetched.badStatus c =>
        ([Action.fetchMetadata failure.name], some (RunError.httpStatusError c))
      | Fetched.ok cluster =>
        if cluster.status = "error" then
          match create_jira_ticket env summaries failure.name cluster with
          | (CreateResult.noTicket, tr) =>
            let r := processFailures env summaries allFlag rest
            (Action.fetchMetadata failure.name :: tr ++ r.1, r.2)
          | (CreateResult.newIssue key, tr) =>
            let logs_url := LOGS_COLLECTOR ++ "/files/" ++ failure.name
            let r := processFailures env summaries allFlag rest
            (Action.fetchMetadata failure.name ::
               tr ++ Action.addSignatures logs_url key :: r.1, r.2)
          | (CreateResult.valueError, tr) =>
            (Action.fetchMetadata failure.name :: tr,
             some RunError.versionUnpackError)
        else
          let r := processFailures env summaries allFlag rest
          (Action.fetchMetadata failure.name :: r.1, r.2)

/-- Command-line arguments used by main (netrc path and verbose flag are
absorbed into the environment and the logging level respectively). -/
structure Args where
  user_password : Option String
  all : Bool
  filters_json : String
deriving DecidableEq

/-- Model of the explicit-credential branch: split(":", 1) followed by
unpacking into exactly two variables.  none models the ValueError raised
when the separator is missing. -/
def parseUserPassword (s : String) : Option (String × String) :=
  match splitOnSep ':' s with
  | [] => Option.none
  | [_] => Option.none
  | u :: rest => some (u, String.intercalate ":" rest)

/-- The body of main after the Jira client is obtained: initial listing GET
(exceptions from the GET are caught and exit 1, an error status raises
uncaught), pagination of existing tickets, the empty-issues check, the
per-failure loop, and the conditional closer invocation. -/
def mainBody (env : Env) (arg : Args) (fuel : Nat) :
    RunOutcome × List Action :=
  match env.listFailures with
  | Fetched.connError =>
    (RunOutcome.exited 1, [Action.logError "Error getting list of failed clusters"])
  | Fetched.badStatus c =>
    (RunOutcome.raised (RunError.httpStatusError c), [])
  | Fetched.ok failed_clusters =>
    match get_all_triage_tickets env.search_issues fuel with
    | Option.none => (RunOutcome.nonTermination, [])
    | some (issues, summaries) =>
      if issues.isEmpty then
        (RunOutcome.raised RunError.noIssuesError, [])
      else
        let r := processFailures env summaries arg.all failed_clusters
        match r.2 with
        | some e => (RunOutcome.raised e, r.1)
        | Option.none =>
          if arg.filters_json = "" then
            (RunOutcome.finished, r.1)
          else
            (RunOutcome.finished, r.1 ++ [Action.runCloser arg.filters_json])

/-- main: credential resolution first.  A missing netrc entry raises
uncaught; a malformed explicit user:password string has its ValueError
caught and logged, after which execution proceeds to get_jira_client where
the unbound username variable raises NameError. -/
def main (env : Env) (arg : Args) (fuel : Nat) : RunOutcome × List Action :=
  match arg.user_password with
  | Option.none =>
    match env.netrcCreds with
    | Option.none => (RunOutcome.raised RunError.netrcError, [])
    | some _ => mainBody env arg fuel
  | some up =>
    match parseUserPassword up with
    | Option.none =>
      (RunOutcome.raised RunError.nameError,
       [Action.logError "Failed to parse user:password"])
    | some _ => mainBody env arg fuel

/-- The summary strings carried by the issue-creation calls of a trace, in
order. -/
def createdSummaries (acts : List Action) : List String :=
  acts.filterMap fun a =>
    match a with
    | Action.createIssue f => some f.summary
    | _ => Option.none

/-- The issue fields of the issue-creation calls of a trace, in order. -/
def createdIssues (acts : List Action) : List IssueFields :=
  acts.filterMap fun a =>
    match a with
    | Action.createIssue f => some f
    | _ => Option.none

/-! ### Concrete environments used as witnesses and counterexamples -/

/-- Metadata of the worked example: an errored cluster on OpenShift 4.12.3. -/
def exampleMD : ClusterMD :=
  { id := "abc"
    user_name := "alice"
    email_domain := "redhat.com"
    openshift_version := "4.12.3"
    status := "error" }

/-- Environment of the worked example: one failure listed, its metadata
available, one existing triage ticket with an unrelated summary. -/
def exampleEnv : Env :=
  { netrcCreds := some ("user", "pass")
    listFailures := Fetched.ok [⟨"2023-01-01_cluster-abc"⟩]
    metadata := fun _ => Fetched.ok exampleMD
    search_issues := fun idx =>
      if idx = 0 then [⟨"MGMT-100", "some other summary", "New"⟩] else []
    days_ago := fun _ => 0
    newKey := fun _ => "MGMT-200"
    describe := fun _ _ => "built description" }

/-- Default arguments: netrc credentials, no all flag, default filters path. -/
def exampleArgs : Args :=
  { user_password := Option.none
    all := false
    filters_json := "./triage_resolving_filters.json" }

/-- The issue fields the worked example must produce. -/
def exampleFields : IssueFields :=
  { project := "MGMT"
    summary := "cloud.redhat.com failure: 2023-01-01_cluster-abc"
    versions := ["OpenShift 4.12"]
    components := ["Assisted-installer Triage"]
    priority := "Blocker"
    issuetype := "Bug"
    labels := ["no-qe", "AI_CLOUD_TRIAGE", "AI_CLUSTER_abc", "AI_USER_alice",
               "AI_DOMAIN_redhat.com"]
    description := "built description" }

/-- Credential resolution succeeds: either the netrc path finds an entry or
the explicit user:password string parses. -/
def credsOk (env : Env) (arg : Args) : Prop :=
  (arg.user_password = Option.none ∧ env.netrcCreds ≠ Option.none) ∨
  (∃ up cred, arg.user_password = some up ∧ parseUserPassword up = some cred)

/-- Same environment, but the listing repeats the same failure bundle
twice. -/
def dupListingEnv : Env :=
  { exampleEnv with
      listFailures := Fetched.ok
        [⟨"2023-01-01_cluster-abc"⟩, ⟨"2023-01-01_cluster-abc"⟩] }

/-- Metadata whose openshift version has no dot. -/
def noDotMD : ClusterMD := { exampleMD with openshift_version := "4" }

/-- Environment serving the dotless metadata. -/
def noDotEnv : Env := { exampleEnv with metadata := fun _ => Fetched.ok noDotMD }

/-- Environment where the initial failure-listing GET raises. -/
def connErrEnv : Env := { exampleEnv with listFailures := Fetched.connError }

/-- Environment where every per-failure metadata GET raises. -/
def metaConnEnv : Env := { exampleEnv with metadata := fun _ => Fetched.connError }

/-- Metadata of a cluster that is not in error state. -/
def readyMD : ClusterMD := { exampleMD with status := "ready" }

/-- Environment serving the non-error metadata. -/
def readyEnv : Env := { exampleEnv with metadata := fun _ => Fetched.ok readyMD }

/-- Environment whose bundles are 31 days old. -/
def oldEnv : Env := { exampleEnv with days_ago := fun _ => 31 }

/-- A one-page Jira search: 1 issue at start index 0, nothing afterwards. -/
def onePageSearch : Nat → List Issue := fun idx =>
  if idx = 0 then [⟨"MGMT-1", "one summary", "New"⟩] else []

/-- Arguments carrying a malformed explicit credential string. -/
def noColonArgs : Args :=
  { user_password := some "nocolon"
    all := false
    filters_json := "./triage_resolving_filters.json" }

/-- Arguments carrying a well-formed explicit credential string. -/
def upArgs : Args :=
  { user_password := some "user:pass"
    all := false
    filters_json := "./triage_resolving_filters.json" }

/-! ### Helper lemmas -/

/-- The summary template is injective in the failure id. -/
lemma format_summary_inj {a b : String}
    (h : format_summary a = format_summary b) : a = b := by
  have h2 := congrArg String.data h
  simp only [format_summary, String.data_append] at h2
  exact String.ext (List.append_cancel_left h2)

@[simp] lemma createdSummaries_nil : createdSummaries [] = [] := rfl

@[simp] lemma createdSummaries_cons_create (f : IssueFields) (l : List Action) :
    createdSummaries (Action.createIssue f :: l) = f.summary :: createdSummaries l := rfl

@[simp] lemma createdSummaries_cons_log (m : String) (l : List Action) :
    createdSummaries (Action.logError m :: l) = createdSummaries l := rfl

@[simp] lemma createdSummaries_cons_fetch (n : String) (l : List Action) :
    createdSummaries (Action.fetchMetadata n :: l) = createdSummaries l := rfl

@[simp] lemma createdSummaries_cons_watcher (k w : String) (l : List Action) :
    createdSummaries (Action.addWatcher k w :: l) = createdSummaries l := rfl

@[simp] lemma createdSummaries_cons_sig (u k : String) (l : List Action) :
    createdSummaries (Action.addSignatures u k :: l) = createdSummaries l := rfl

@[simp] lemma createdSummaries_cons_closer (p : String) (l : List Action) :
    createdSummaries (Action.runCloser p :: l) = createdSummaries l := rfl

@[simp] lemma createdSummaries_append (l₁ l₂ : List Action) :
    createdSummaries (l₁ ++ l₂) = createdSummaries l₁ ++ createdSummaries l₂ :=
  List.filterMap_append l₁ l₂ _

@[simp] lemma createdSummaries_watchers (k : String) (ws : List String) :
    createdSummaries (ws.map fun w => Action.addWatcher k w) = [] := by
  induction ws with
  | nil => rfl
  | cons w ws ih => simpa using ih

/-- Membership in the created summaries of a trace. -/
lemma mem_createdSummaries {s : String} {acts : List Action} :
    s ∈ createdSummaries acts ↔
      ∃ f, Action.createIssue f ∈ acts ∧ f.summary = s := by
  constructor
  · intro h
    rw [createdSummaries, List.mem_filterMap] at h
    obtain ⟨a, ha, he⟩ := h
    cases a <;> simp only [Option.some.injEq, reduceCtorEq] at he
    exact ⟨_, ha, he⟩
  · rintro ⟨f, hf, rfl⟩
    rw [createdSummaries, List.mem_filterMap]
    exact ⟨Action.createIssue f, hf, rfl⟩

/-- Inversion: the already-filed branch of create_jira_ticket. -/
lemma create_jira_ticket_mem (env : Env) {existing : List String}
    {fid : String} (md : ClusterMD) (h : format_summary fid ∈ existing) :
    create_jira_ticket env existing fid md = (CreateResult.noTicket, []) := by
  simp [create_jira_ticket, h]

/-- The creation branch of create_jira_ticket. -/
lemma create_jira_ticket_created (env : Env) {existing : List String}
    {fid : String} {md : ClusterMD} {major minor : String} {rest : List String}
    (h : format_summary fid ∉ existing)
    (hs : splitOnSep '.' md.openshift_version = major :: minor :: rest) :
    create_jira_ticket env existing fid md =
      (CreateResult.newIssue (env.newKey (ticketFields env fid md major minor)),
       Action.createIssue (ticketFields env fid md major minor) ::
         DEFAULT_WATCHERS.map
           (fun w => Action.addWatcher
              (env.newKey (ticketFields env fid md major minor)) w)) := by
  simp [create_jira_ticket, h, hs]

/-- The ValueError branch of create_jira_ticket: fewer than two components
after splitting the openshift version on dots. -/
lemma create_jira_ticket_short (env : Env) {existing : List String}
    {fid : String} {md : ClusterMD}
    (h : format_summary fid ∉ existing)
    (hs : (splitOnSep '.' md.openshift_version).length ≤ 1) :
    create_jira_ticket env existing fid md = (CreateResult.valueError, []) := by
  rcases hl : splitOnSep '.' md.openshift_version with _ | ⟨a, _ | ⟨b, t⟩⟩
  · simp [create_jira_ticket, h, hl]
  · simp [create_jira_ticket, h, hl]
  · rw [hl] at hs
    simp at hs

/-- Every issue-creation call in the trace of the per-failure loop comes
from a listed failure whose formatted summary was absent from the dedup set
and whose fetched cluster status was the string error. -/
lemma createIssue_mem_processFailures {env : Env} {sums : List String}
    {aflag : Bool} {fs : List Failure} {fields : IssueFields}
    (h : Action.createIssue fields ∈ (processFailures env sums aflag fs).1) :
    ∃ f, f ∈ fs ∧ fields.summary = format_summary f.name ∧
      format_summary f.name ∉ sums ∧
      ∃ c, env.metadata f.name = Fetched.ok c ∧ c.status = "error" := by
  induction fs with
  | nil => simp [processFailures] at h
  | cons f rest ih =>
    rw [processFailures] at h
    by_cases hage : aflag = false ∧
        env.days_ago ((splitOnSep '_' f.name).headD "") >
          (DEFAULT_DAYS_TO_HANDLE : Int)
    · rw [if_pos hage] at h
      obtain ⟨g, hg, hrest⟩ := ih h
      exact ⟨g, List.mem_cons_of_mem f hg, hrest⟩
    · rw [if_neg hage] at h
      cases hmd : env.metadata f.name with
      | connError => rw [hmd] at h; simp at h
      | badStatus c => rw [hmd] at h; simp at h
      | ok cluster =>
        rw [hmd] at h
        dsimp only at h
        by_cases hstat : cluster.status = "error"
        · rw [if_pos hstat] at h
          by_cases hmem : format_summary f.name ∈ sums
          · rw [create_jira_ticket_mem env cluster hmem] at h
            simp at h
            obtain ⟨g, hg, hrest⟩ := ih h
            exact ⟨g, List.mem_cons_of_mem f hg, hrest⟩
          · rcases hsplit : splitOnSep '.' cluster.openshift_version with
              _ | ⟨major, _ | ⟨minor, t⟩⟩
            · rw [create_jira_ticket_short env hmem (by rw [hsplit]; simp)] at h
              simp at h
            · rw [create_jira_ticket_short env hmem (by rw [hsplit]; simp)] at h
              simp at h
            · rw [create_jira_ticket_created env hmem hsplit] at h
              simp at h
              rcases h with hF | h
              · refine ⟨f, List.mem_cons_self f rest, ?_, hmem,
                  cluster, hmd, hstat⟩
                subst hF
                rfl
              · obtain ⟨g, hg, hrest⟩ := ih h
                exact ⟨g, List.mem_cons_of_mem f hg, hrest⟩
        · rw [if_neg hstat] at h
          simp only [List.mem_cons, reduceCtorEq, false_or] at h
          obtain ⟨g, hg, hrest⟩ := ih h
          exact ⟨g, List.mem_cons_of_mem f hg, hrest⟩

/-- With pairwise-distinct failure names, the per-failure loop never issues
two creation calls with the same summary. -/
lemma createdSummaries_processFailures_nodup (env : Env) (sums : List String)
    (aflag : Bool) :
    ∀ fs : List Failure, (fs.map Failure.name).Nodup →
      (createdSummaries (processFailures env sums aflag fs).1).Nodup := by
  intro fs
  induction fs with
  | nil => intro _; simp [processFailures]
  | cons f rest ih =>
    intro hnd
    rw [List.map_cons, List.nodup_cons] at hnd
    obtain ⟨hhead, htail⟩ := hnd
    rw [processFailures]
    by_cases hage : aflag = false ∧
        env.days_ago ((splitOnSep '_' f.name).headD "") >
          (DEFAULT_DAYS_TO_HANDLE : Int)
    · rw [if_pos hage]
      exact ih htail
    · rw [if_neg hage]
      cases hmd : env.metadata f.name with
      | connError => simp
      | badStatus c => simp
      | ok cluster =>
        dsimp only
        by_cases hstat : cluster.status = "error"
        · rw [if_pos hstat]
          by_cases hmem : format_summary f.name ∈ sums
          · rw [create_jira_ticket_mem env cluster hmem]
            simpa using ih htail
          · rcases hsplit : splitOnSep '.' cluster.openshift_version with
              _ | ⟨major, _ | ⟨minor, t⟩⟩
            · rw [create_jira_ticket_short env hmem (by rw [hsplit]; simp)]
              simp
            · rw [create_jira_ticket_short env hmem (by rw [hsplit]; simp)]
              simp
            · rw [create_jira_ticket_created env hmem hsplit]
              simp only [createdSummaries_cons_fetch, List.cons_append,
                createdSummaries_cons_create, createdSummaries_append,
                createdSummaries_watchers, createdSummaries_cons_sig,
                List.nil_append]
              rw [List.nodup_cons]
              constructor
              · intro hmemc
                rw [mem_createdSummaries] at hmemc
                obtain ⟨G, hG, hGs⟩ := hmemc
                obtain ⟨g, hg, hgs, _⟩ := createIssue_mem_processFailures hG
                have hff : format_summary f.name = format_summary g.name :=
                  hGs.symm.trans hgs
                have hnames : f.name = g.name := format_summary_inj hff
                exact hhead (hnames ▸ List.mem_map_of_mem Failure.name hg)
              · exact ih htail
        · rw [if_neg hstat]
          simpa using ih htail

/-- Pagination loop characterization, from an arbitrary start index: if the
pages at idx, idx + 100, ..., idx + 100(n-1) are nonempty and the page at
idx + 100n is empty, the loop stops there and returns the concatenation of
the fetched pages and of their summaries. -/
lemma getAllTriageTicketsFrom_spec (search : Nat → List Issue) :
    ∀ (n fuel idx : Nat),
      (∀ k, k < n → search (idx + block_size * k) ≠ []) →
      search (idx + block_size * n) = [] →
      n < fuel →
      getAllTriageTicketsFrom search fuel idx =
        some (((List.range n).map fun k => search (idx + block_size * k)).flatten,
              ((List.range n).map fun k =>
                 (search (idx + block_size * k)).map Issue.summary).flatten) := by
  intro n
  induction n with
  | zero =>
    intro fuel idx _ he hfuel
    cases fuel with
    | zero => omega
    | succ fu =>
      rw [getAllTriageTicketsFrom]
      simp only [Nat.mul_zero, Nat.add_zero] at he
      simp [he]
  | succ n ih =>
    intro fuel idx hne he hfuel
    cases fuel with
    | zero => omega
    | succ fu =>
      have harith : ∀ k : Nat,
          idx + block_size * (k + 1) = idx + block_size + block_size * k := by
        intro k
        ring
      have h0 : ¬ (search idx).length = 0 := by
        have h1 := hne 0 (Nat.succ_pos n)
        simpa [List.length_eq_zero] using h1
      have hrec := ih fu (idx + block_size)
        (fun k hk => by rw [← harith k]; exact hne (k + 1) (by omega))
        (by rw [← harith n]; exact he)
        (by omega)
      rw [getAllTriageTicketsFrom]
      simp only [if_neg h0]
      rw [hrec]
      have hsplit : ∀ (α : Type) (g : Nat → List α),
          ((List.range (n + 1)).map g).flatten =
            g 0 ++ ((List.range n).map fun k => g (k + 1)).flatten := by
        intro α g
        rw [List.range_succ_eq_map]
        simp [Function.comp_def]
      rw [hsplit Issue fun k => search (idx + block_size * k)]
      rw [hsplit String fun k => (search (idx + block_size * k)).map Issue.summary]
      simp only [harith, Nat.mul_zero, Nat.add_zero]

/-- If no page within the fuel bound is empty, the loop is still running
when the bound is reached: it terminates only on an empty page. -/
lemma getAllTriageTicketsFrom_noStop (search : Nat → List Issue) :
    ∀ (fuel idx : Nat),
      (∀ k, k < fuel → search (idx + block_size * k) ≠ []) →
      getAllTriageTicketsFrom search fuel idx = Option.none := by
  intro fuel
  induction fuel with
  | zero => intro idx _; rfl
  | succ fu ih =>
    intro idx hne
    have h0 : ¬ (search idx).length = 0 := by
      have h1 := hne 0 (Nat.succ_pos fu)
      simpa [List.length_eq_zero] using h1
    rw [getAllTriageTicketsFrom]
    simp only [if_neg h0]
    have hrec := ih (idx + block_size) (fun k hk => by
      have h2 := hne (k + 1) (by omega)
      rw [show idx + block_size * (k + 1) = idx + block_size + block_size * k
        from by ring] at h2
      exact h2)
    rw [hrec]

/-- When credential resolution succeeds, main proceeds to its body. -/
lemma main_eq_mainBody {env : Env} {arg : Args} (fuel : Nat)
    (h : credsOk env arg) :
    main env arg fuel = mainBody env arg fuel := by
  rcases h with ⟨hup, hnet⟩ | ⟨up, cred, hup, hparse⟩
  · rw [main, hup]
    cases hnc : env.netrcCreds with
    | none => exact absurd hnc hnet
    | some c => rfl
  · rw [main, hup]
    dsimp only
    rw [hparse]

/-- A failure that passes the age filter always has its metadata fetched
first, whatever the fetch returns. -/
lemma processFailures_cons_fetch (env : Env) (sums : List String)
    (aflag : Bool) (f : Failure) (rest : List Failure)
    (hage : ¬(aflag = false ∧
        env.days_ago ((splitOnSep '_' f.name).headD "") >
          (DEFAULT_DAYS_TO_HANDLE : Int))) :
    ∃ tl e, processFailures env sums aflag (f :: rest) =
      (Action.fetchMetadata f.name :: tl, e) := by
  rw [processFailures, if_neg hage]
  cases env.metadata f.name with
  | connError => exact ⟨[], _, rfl⟩
  | badStatus c => exact ⟨[], _, rfl⟩
  | ok cluster =>
    dsimp only
    by_cases hstat : cluster.status = "error"
    · rw [if_pos hstat]
      rcases hc : create_jira_ticket env sums f.name cluster with ⟨cr, tr⟩
      cases cr
      · exact ⟨_, _, rfl⟩
      · exact ⟨_, _, rfl⟩
      · exact ⟨_, _, rfl⟩
    · rw [if_neg hstat]
      exact ⟨_, _, rfl⟩

/-- The created summaries of a full run are empty, or exactly the created
summaries of the per-failure loop run on the fetched listing with the
fetched dedup summaries. -/
lemma main_created_eq (env : Env) (arg : Args) (fuel : Nat) :
    createdSummaries (main env arg fuel).2 = [] ∨
    ∃ fs issues sums, env.listFailures = Fetched.ok fs ∧
      get_all_triage_tickets env.search_issues fuel = some (issues, sums) ∧
      createdSummaries (main env arg fuel).2 =
        createdSummaries (processFailures env sums arg.all fs).1 := by
  have hbody : ∀ henv : main env arg fuel = mainBody env arg fuel,
      createdSummaries (main env arg fuel).2 = [] ∨
      ∃ fs issues sums, env.listFailures = Fetched.ok fs ∧
        get_all_triage_tickets env.search_issues fuel = some (issues, sums) ∧
        createdSummaries (main env arg fuel).2 =
          createdSummaries (processFailures env sums arg.all fs).1 := by
    intro henv
    rw [henv, mainBody]
    cases hlf : env.listFailures with
    | connError => simp
    | badStatus c => simp
    | ok fs =>
      dsimp only
      cases hget : get_all_triage_tickets env.search_issues fuel with
      | none => simp
      | some pr =>
        rcases pr with ⟨issues, sums⟩
        dsimp only
        by_cases hemp : issues.isEmpty
        · rw [if_pos hemp]
          simp
        · rw [if_neg hemp]
          refine Or.inr ⟨fs, issues, sums, rfl, rfl, ?_⟩
          cases hproc : (processFailures env sums arg.all fs).2 with
          | none =>
            dsimp only
            by_cases hfil : arg.filters_json = ""
            · rw [if_pos hfil]
            · rw [if_neg hfil]
              simp
          | some e =>
            rfl
  rw [main]
  cases hup : arg.user_password with
  | none =>
    cases hnc : env.netrcCreds with
    | none => simp
    | some c =>
      dsimp only
      have henv : main env arg fuel = mainBody env arg fuel :=
        main_eq_mainBody fuel (Or.inl ⟨hup, by rw [hnc]; simp⟩)
      rw [← henv]
      exact hbody henv
  | some up =>
    cases hparse : parseUserPassword up with
    | none =>
      dsimp only
      rw [hparse]
      simp
    | some cred =>
      dsimp only
      rw [hparse]
      have henv : main env arg fuel = mainBody env arg fuel :=
        main_eq_mainBody fuel (Or.inr ⟨up, cred, hup, hparse⟩)
      rw [← henv]
      exact hbody henv

/-! ### Claim theorems -/

/-- Claim C1, counterexample to the claim as stated: when the fetched
listing contains the same failure bundle twice, one run performs two
issue-creation calls carrying the same summary string, because the dedup
set is never updated during the run. -/
theorem c1_counterexample_duplicate_listing :
    createdSummaries (main dupListingEnv exampleArgs 2).2 =
      ["cloud.redhat.com failure: 2023-01-01_cluster-abc",
       "cloud.redhat.com failure: 2023-01-01_cluster-abc"] ∧
    ¬ (createdSummaries (main dupListingEnv exampleArgs 2).2).Nodup := by
  decide

/-- Claim C1, amended: provided the failure names in the fetched listing
are pairwise distinct, no two issue-creation calls of a run carry the same
summary string; moreover the only dedup mechanism is membership in the
summary set fetched at the start of the run, so every creation call in the
run carries a summary outside that set. -/
theorem c1_unique_summaries_per_run (env : Env) (arg : Args) (fuel : Nat)
    (hnodup : ∀ fs, env.listFailures = Fetched.ok fs →
      (fs.map Failure.name).Nodup) :
    (createdSummaries (main env arg fuel).2).Nodup ∧
    (∀ issues sums,
      get_all_triage_tickets env.search_issues fuel = some (issues, sums) →
      ∀ s, s ∈ createdSummaries (main env arg fuel).2 → s ∉ sums) := by
  rcases main_created_eq env arg fuel with hmc | ⟨fs, issues, sums, hlf, hget, hmc⟩
  · rw [hmc]
    refine ⟨List.nodup_nil, ?_⟩
    intro _ _ _ s hs
    exact absurd hs (List.not_mem_nil s)
  · constructor
    · rw [hmc]
      exact createdSummaries_processFailures_nodup env sums arg.all fs
        (hnodup fs hlf)
    · intro issues2 sums2 hget2 s hs
      rw [hget] at hget2
      obtain ⟨rfl, rfl⟩ : issues = issues2 ∧ sums = sums2 := by
        have h2 := Option.some.inj hget2
        exact ⟨congrArg Prod.fst h2, congrArg Prod.snd h2⟩
      rw [hmc] at hs
      rw [mem_createdSummaries] at hs
      obtain ⟨G, hG, hGs⟩ := hs
      obtain ⟨g, hg, hgs, hgnotin, _⟩ := createIssue_mem_processFailures hG
      rw [← hGs, hgs]
      exact hgnotin

/-- Claim C1 witness: with distinct failure names the concrete worked
example creates no duplicate summary, and its single created summary is
outside the fetched set. -/
theorem c1_witness :
    (createdSummaries (main exampleEnv exampleArgs 2).2).Nodup ∧
    ∀ s, s ∈ createdSummaries (main exampleEnv exampleArgs 2).2 →
      s ∉ ["some other summary"] := by
  have h := c1_unique_summaries_per_run exampleEnv exampleArgs 2
    (by intro fs hfs; cases hfs; decide)
  exact ⟨h.1, h.2 [⟨"MGMT-100", "some other summary", "New"⟩]
    ["some other summary"] (by decide)⟩

/-- Claim C2: for a failure whose formatted summary is already among the
existing ticket summaries, create_jira_ticket returns None and performs no
Jira call at all, and the per-failure loop performs only the metadata fetch
for it (no watchers, no signatures). -/
theorem c2_existing_summary_skips (env : Env) (sums : List String)
    (aflag : Bool) (f : Failure) (rest : List Failure) (md : ClusterMD)
    (hmem : format_summary f.name ∈ sums) :
    create_jira_ticket env sums f.name md = (CreateResult.noTicket, []) ∧
    (env.metadata f.name = Fetched.ok md → md.status = "error" →
      ¬(aflag = false ∧
          env.days_ago ((splitOnSep '_' f.name).headD "") >
            (DEFAULT_DAYS_TO_HANDLE : Int)) →
      processFailures env sums aflag (f :: rest) =
        (Action.fetchMetadata f.name :: (processFailures env sums aflag rest).1,
         (processFailures env sums aflag rest).2)) := by
  refine ⟨create_jira_ticket_mem env md hmem, ?_⟩
  intro hmd hstat hage
  rw [processFailures, if_neg hage, hmd]
  dsimp only
  rw [if_pos hstat, create_jira_ticket_mem env md hmem]
  rfl

/-- Claim C2 witness: concrete instance with the summary already filed. -/
theorem c2_witness :
    format_summary "2023-01-01_cluster-abc" ∈
      ["cloud.redhat.com failure: 2023-01-01_cluster-abc"] ∧
    create_jira_ticket exampleEnv
      ["cloud.redhat.com failure: 2023-01-01_cluster-abc"]
      "2023-01-01_cluster-abc" exampleMD = (CreateResult.noTicket, []) ∧
    processFailures exampleEnv
      ["cloud.redhat.com failure: 2023-01-01_cluster-abc"] true
      [⟨"2023-01-01_cluster-abc"⟩] =
      ([Action.fetchMetadata "2023-01-01_cluster-abc"], Option.none) := by
  have h := c2_existing_summary_skips exampleEnv
    ["cloud.redhat.com failure: 2023-01-01_cluster-abc"] true
    ⟨"2023-01-01_cluster-abc"⟩ [] exampleMD (by decide)
  refine ⟨by decide, h.1, ?_⟩
  rw [h.2 rfl rfl (by decide)]
  rfl

/-- Claim C3: the worked example run creates exactly one ticket, whose
label list contains AI_CLUSTER_abc and whose affected-version entry is
OpenShift 4.12 (first two dot-separated components of 4.12.3). -/
theorem c3_worked_example :
    createdIssues (main exampleEnv exampleArgs 2).2 = [exampleFields] ∧
    "AI_CLUSTER_abc" ∈ exampleFields.labels ∧
    exampleFields.versions = ["OpenShift 4.12"] := by
  decide

/-- Claim C4: the pagination loop requests pages at start indices 0,
block_size, 2 * block_size, ..., terminates exactly on the first empty
page, and returns the issues of all earlier pages in order together with
their summaries; membership in the returned summaries is exactly being the
summary of an issue on a page fetched before the empty page.  When no page
within the fuel bound is empty the loop is still running. -/
theorem c4_pagination (search : Nat → List Issue) :
    (∀ n fuel, (∀ k, k < n → search (block_size * k) ≠ []) →
      search (block_size * n) = [] → n < fuel →
      ∃ issues summaries,
        get_all_triage_tickets search fuel = some (issues, summaries) ∧
        issues = ((List.range n).map fun k => search (block_size * k)).flatten ∧
        summaries = ((List.range n).map fun k =>
          (search (block_size * k)).map Issue.summary).flatten ∧
        (∀ s, s ∈ summaries ↔
          ∃ k, k < n ∧ ∃ i, i ∈ search (block_size * k) ∧ i.summary = s)) ∧
    (∀ fuel, (∀ k, k < fuel → search (block_size * k) ≠ []) →
      get_all_triage_tickets search fuel = Option.none) := by
  constructor
  · intro n fuel hne he hfuel
    have h := getAllTriageTicketsFrom_spec search n fuel 0
      (by simpa using hne) (by simpa using he) hfuel
    rw [get_all_triage_tickets, h]
    simp only [Nat.zero_add]
    refine ⟨_, _, rfl, rfl, rfl, ?_⟩
    intro s
    simp only [List.mem_flatten, List.mem_map, List.mem_range]
    constructor
    · rintro ⟨l, ⟨k, hk, rfl⟩, hs⟩
      obtain ⟨i, hi, his⟩ := List.mem_map.mp hs
      exact ⟨k, hk, i, hi, his⟩
    · rintro ⟨k, hk, i, hi, his⟩
      exact ⟨(search (block_size * k)).map Issue.summary, ⟨k, hk, rfl⟩,
        List.mem_map.mpr ⟨i, hi, his⟩⟩
  · intro fuel hne
    exact getAllTriageTicketsFrom_noStop search fuel 0 (by simpa using hne)

/-- Claim C4 witness: a tracker with one nonempty page terminates after the
second fetch and returns that single page. -/
theorem c4_witness :
    (∀ k, k < 1 → onePageSearch (block_size * k) ≠ []) ∧
    onePageSearch (block_size * 1) = [] ∧
    (∃ issues summaries,
      get_all_triage_tickets onePageSearch 2 = some (issues, summaries) ∧
      issues = ((List.range 1).map fun k =>
        onePageSearch (block_size * k)).flatten ∧
      summaries = ((List.range 1).map fun k =>
        (onePageSearch (block_size * k)).map Issue.summary).flatten ∧
      (∀ s, s ∈ summaries ↔
        ∃ k, k < 1 ∧ ∃ i, i ∈ onePageSearch (block_size * k) ∧
          i.summary = s)) := by
  refine ⟨by decide, by decide, ?_⟩
  exact (c4_pagination onePageSearch).1 1 2 (by decide) (by decide) (by decide)

/-- Claim C5: a failure whose date prefix is more than 30 days old is
skipped entirely (no metadata fetch) when the all flag is unset, while with
the all flag set, and likewise for any failure at most 30 days old under
either flag, the metadata fetch for it is performed. -/
theorem c5_age_filter (env : Env) (sums : List String) (f : Failure)
    (rest : List Failure) :
    (env.days_ago ((splitOnSep '_' f.name).headD "") >
        (DEFAULT_DAYS_TO_HANDLE : Int) →
      processFailures env sums false (f :: rest) =
        processFailures env sums false rest) ∧
    (∃ tl e, processFailures env sums true (f :: rest) =
      (Action.fetchMetadata f.name :: tl, e)) ∧
    (¬ env.days_ago ((splitOnSep '_' f.name).headD "") >
        (DEFAULT_DAYS_TO_HANDLE : Int) →
      ∀ aflag, ∃ tl e, processFailures env sums aflag (f :: rest) =
        (Action.fetchMetadata f.name :: tl, e)) := by
  refine ⟨?_, ?_, ?_⟩
  · intro hold
    rw [processFailures, if_pos ⟨rfl, hold⟩]
  · exact processFailures_cons_fetch env sums true f rest (by simp)
  · intro hfresh aflag
    exact processFailures_cons_fetch env sums aflag f rest
      (fun hc => hfresh hc.2)

/-- Claim C5 witness: a 31-day-old failure is dropped without a metadata
fetch when the flag is unset, fetched when it is set; a fresh failure is
fetched even without the flag. -/
theorem c5_witness :
    processFailures oldEnv [] false [⟨"2023-01-01_cluster-abc"⟩] =
      processFailures oldEnv [] false [] ∧
    (∃ tl e, processFailures oldEnv [] true [⟨"2023-01-01_cluster-abc"⟩] =
      (Action.fetchMetadata "2023-01-01_cluster-abc" :: tl, e)) ∧
    (∃ tl e, processFailures exampleEnv [] false [⟨"2023-01-01_cluster-abc"⟩] =
      (Action.fetchMetadata "2023-01-01_cluster-abc" :: tl, e)) := by
  refine ⟨?_, ?_, ?_⟩
  · exact (c5_age_filter oldEnv [] ⟨"2023-01-01_cluster-abc"⟩ []).1 (by decide)
  · exact (c5_age_filter oldEnv [] ⟨"2023-01-01_cluster-abc"⟩ []).2.1
  · exact (c5_age_filter exampleEnv [] ⟨"2023-01-01_cluster-abc"⟩ []).2.2
      (by decide) false

/-- Claim C6: a failure whose fetched cluster metadata has a status other
than error never has a ticket created for it: its formatted summary is
absent from the creation calls of the per-failure loop, for every flag
value and every listing. -/
theorem c6_non_error_status (env : Env) (sums : List String) (aflag : Bool)
    (fs : List Failure) (name : String) (cluster : ClusterMD)
    (hmd : env.metadata name = Fetched.ok cluster)
    (hstat : cluster.status ≠ "error") :
    format_summary name ∉
      createdSummaries (processFailures env sums aflag fs).1 := by
  intro hmem
  rw [mem_createdSummaries] at hmem
  obtain ⟨G, hG, hGs⟩ := hmem
  obtain ⟨g, hg, hgs, _, c, hc, hcs⟩ := createIssue_mem_processFailures hG
  have hnames : g.name = name := format_summary_inj (by rw [← hgs, hGs])
  rw [hnames, hmd] at hc
  have : cluster = c := Fetched.ok.inj hc
  exact hstat (this ▸ hcs)

/-- Claim C6 witness: a cluster in ready state gets no ticket, with or
without the all flag. -/
theorem c6_witness :
    readyEnv.metadata "2023-01-01_cluster-abc" = Fetched.ok readyMD ∧
    readyMD.status ≠ "error" ∧
    format_summary "2023-01-01_cluster-abc" ∉
      createdSummaries
        (processFailures readyEnv [] true [⟨"2023-01-01_cluster-abc"⟩]).1 := by
  exact ⟨rfl, by decide,
    c6_non_error_status readyEnv [] true [⟨"2023-01-01_cluster-abc"⟩]
      "2023-01-01_cluster-abc" readyMD rfl (by decide)⟩

/-- Claim C7: HTTP errors are handled asymmetrically.  An exception raised
by the initial failure-listing GET is caught, logged, and the process exits
with status 1; an HTTP error during a per-failure metadata fetch inside the
loop (a raised request exception or an error status) is not caught: the
loop stops with only that fetch in its trace, so no subsequent failure is
processed, and main ends with the exception raised. -/
theorem c7_error_asymmetry :
    (∀ env arg fuel, credsOk env arg → env.listFailures = Fetched.connError →
      main env arg fuel =
        (RunOutcome.exited 1,
         [Action.logError "Error getting list of failed clusters"])) ∧
    (∀ (env : Env) sums aflag f rest,
      ¬(aflag = false ∧
          env.days_ago ((splitOnSep '_' f.name).headD "") >
            (DEFAULT_DAYS_TO_HANDLE : Int)) →
      env.metadata f.name = Fetched.connError →
      processFailures env sums aflag (f :: rest) =
        ([Action.fetchMetadata f.name], some RunError.requestError)) ∧
    (∀ (env : Env) sums aflag f rest c,
      ¬(aflag = false ∧
          env.days_ago ((splitOnSep '_' f.name).headD "") >
            (DEFAULT_DAYS_TO_HANDLE : Int)) →
      env.metadata f.name = Fetched.badStatus c →
      processFailures env sums aflag (f :: rest) =
        ([Action.fetchMetadata f.name], some (RunError.httpStatusError c))) ∧
    (∀ env arg fuel fs issues sums acts e, credsOk env arg →
      env.listFailures = Fetched.ok fs →
      get_all_triage_tickets env.search_issues fuel = some (issues, sums) →
      issues ≠ [] →
      processFailures env sums arg.all fs = (acts, some e) →
      main env arg fuel = (RunOutcome.raised e, acts)) := by
  refine ⟨?_, ?_, ?_, ?_⟩
  · intro env arg fuel hcred hlf
    rw [main_eq_mainBody fuel hcred, mainBody, hlf]
  · intro env sums aflag f rest hage hmd
    rw [processFailures, if_neg hage, hmd]
  · intro env sums aflag f rest c hage hmd
    rw [processFailures, if_neg hage, hmd]
  · intro env arg fuel fs issues sums acts e hcred hlf hget hne hproc
    rw [main_eq_mainBody fuel hcred, mainBody, hlf]
    dsimp only
    rw [hget]
    dsimp only
    rw [if_neg (by simpa [List.isEmpty_iff] using hne), hproc]

/-- Claim C7 witness: concrete runs exhibiting both sides of the
asymmetry. -/
theorem c7_witness :
    main connErrEnv upArgs 2 =
      (RunOutcome.exited 1,
       [Action.logError "Error getting list of failed clusters"]) ∧
    processFailures metaConnEnv [] true [⟨"2023-01-01_cluster-abc"⟩,
        ⟨"2023-01-02_cluster-def"⟩] =
      ([Action.fetchMetadata "2023-01-01_cluster-abc"],
       some RunError.requestError) ∧
    main metaConnEnv upArgs 2 =
      (RunOutcome.raised RunError.requestError,
       [Action.fetchMetadata "2023-01-01_cluster-abc"]) := by
  refine ⟨?_, ?_, ?_⟩
  · exact c7_error_asymmetry.1 connErrEnv upArgs 2
      (Or.inr ⟨"user:pass", ("user", "pass"), rfl, by decide⟩) rfl
  · exact c7_error_asymmetry.2.1 metaConnEnv [] true
      ⟨"2023-01-01_cluster-abc"⟩ [⟨"2023-01-02_cluster-def"⟩]
      (by decide) rfl
  · exact c7_error_asymmetry.2.2.2 metaConnEnv upArgs 2
      [⟨"2023-01-01_cluster-abc"⟩] [⟨"MGMT-100", "some other summary", "New"⟩]
      ["some other summary"] [Action.fetchMetadata "2023-01-01_cluster-abc"]
      RunError.requestError
      (Or.inr ⟨"user:pass", ("user", "pass"), rfl, by decide⟩) rfl
      (by decide) (by decide) (by decide)

/-- Claim C8: when the paginated fetch of existing tickets returns zero
issues, main raises the connection error before processing any failure
bundle: the outcome is the raised error and the trace is empty. -/
theorem c8_empty_issue_list (env : Env) (arg : Args) (fuel : Nat)
    (fs : List Failure) (sums : List String)
    (hcred : credsOk env arg)
    (hlf : env.listFailures = Fetched.ok fs)
    (hget : get_all_triage_tickets env.search_issues fuel = some ([], sums)) :
    main env arg fuel = (RunOutcome.raised RunError.noIssuesError, []) := by
  rw [main_eq_mainBody fuel hcred, mainBody, hlf]
  dsimp only
  rw [hget]
  rfl

/-- Claim C8 witness: a tracker whose first page is already empty makes the
run raise before touching the listed failure. -/
theorem c8_witness :
    get_all_triage_tickets
      (fun _ => ([] : List Issue)) 2 = some ([], []) ∧
    main { exampleEnv with search_issues := fun _ => [] } upArgs 2 =
      (RunOutcome.raised RunError.noIssuesError, []) := by
  refine ⟨by decide, ?_⟩
  exact c8_empty_issue_list { exampleEnv with search_issues := fun _ => [] }
    upArgs 2 [⟨"2023-01-01_cluster-abc"⟩] []
    (Or.inr ⟨"user:pass", ("user", "pass"), rfl, by decide⟩) rfl (by decide)

/-- Claim C9: an explicit credential string without the colon separator has
its parse exception caught and logged (reported as an error, not fatal at
the resolution step); execution continues past credential resolution and
the run then fails at the client-construction step with a NameError about
the unbound username, not with the parse error. -/
theorem c9_credential_parse (env : Env) (arg : Args) (fuel : Nat) (s : String)
    (hup : arg.user_password = some s)
    (hnocolon : (splitOnSep ':' s).length = 1) :
    main env arg fuel =
      (RunOutcome.raised RunError.nameError,
       [Action.logError "Failed to parse user:password"]) := by
  have hparse : parseUserPassword s = Option.none := by
    rcases hl : splitOnSep ':' s with _ | ⟨a, _ | ⟨b, t⟩⟩
    · rw [parseUserPassword, hl]
    · rw [parseUserPassword, hl]
    · rw [hl] at hnocolon
      simp at hnocolon
  rw [main, hup]
  dsimp only
  rw [hparse]

/-- Claim C9 witness: the string nocolon lacks the separator and the run
continues past resolution, failing later with the NameError. -/
theorem c9_witness :
    (splitOnSep ':' "nocolon").length = 1 ∧
    main exampleEnv noColonArgs 2 =
      (RunOutcome.raised RunError.nameError,
       [Action.logError "Failed to parse user:password"]) := by
  exact ⟨by decide,
    c9_credential_parse exampleEnv noColonArgs 2 "nocolon" rfl (by decide)⟩

/-- Claim C10: for metadata whose openshift version splits on dots into
fewer than two components, create_jira_ticket with a not-yet-filed summary
raises during version unpacking, after the dedup check but before any
issue-creation call: no Jira call appears in its trace, and the per-failure
loop aborts there with the unpack error, processing nothing further. -/
theorem c10_version_unpack (env : Env) (sums : List String) (aflag : Bool)
    (f : Failure) (rest : List Failure) (md : ClusterMD)
    (hmem : format_summary f.name ∉ sums)
    (hver : (splitOnSep '.' md.openshift_version).length ≤ 1)
    (hmd : env.metadata f.name = Fetched.ok md)
    (hstat : md.status = "error")
    (hage : ¬(aflag = false ∧
        env.days_ago ((splitOnSep '_' f.name).headD "") >
          (DEFAULT_DAYS_TO_HANDLE : Int))) :
    create_jira_ticket env sums f.name md = (CreateResult.valueError, []) ∧
    processFailures env sums aflag (f :: rest) =
      ([Action.fetchMetadata f.name], some RunError.versionUnpackError) := by
  have hc := create_jira_ticket_short env hmem hver
  refine ⟨hc, ?_⟩
  rw [processFailures, if_neg hage, hmd]
  dsimp only
  rw [if_pos hstat, hc]

/-- Claim C10 witness: openshift version 4 has no dot; the loop aborts with
the unpack error and creates nothing. -/
theorem c10_witness :
    (splitOnSep '.' noDotMD.openshift_version).length ≤ 1 ∧
    create_jira_ticket noDotEnv [] "2023-01-01_cluster-abc" noDotMD =
      (CreateResult.valueError, []) ∧
    processFailures noDotEnv [] true [⟨"2023-01-01_cluster-abc"⟩,
        ⟨"2023-01-02_cluster-def"⟩] =
      ([Action.fetchMetadata "2023-01-01_cluster-abc"],
       some RunError.versionUnpackError) := by
  have h := c10_version_unpack noDotEnv [] true ⟨"2023-01-01_cluster-abc"⟩
    [⟨"2023-01-02_cluster-def"⟩] noDotMD (by decide) (by decide) rfl rfl
    (by decide)
  exact ⟨by decide, h.1, h.2⟩

end Triage

